import Mathlib

/-!
Shallow embedding of the credit-application form
(repository evshvarov/credit-app-maker, file CreditApplicationForm.tsx,
given as src/unnamed/part_000).

The embedded logic consists of:
- the zod validation schema `formSchema` (lines 27-55), modelled as
  per-field parsers returning `Option` (accepted value or rejection);
- the `nationalities` list (lines 59-71) that populates the select UI;
- the field `onChange` handlers, in particular the tax-ID handler that
  uppercases the input before storing it (line 210);
- the submission controller: `isSubmitting` / `isSuccess` flags, the
  `onSubmit` handler with its fetch / catch / finally structure
  (lines 88-123), the submit button disabled while submitting
  (lines 278-284), and the 3000 ms reset timer (lines 111-114).

Strings are ASCII in all the scenarios of interest; JS string length
(UTF-16 units) coincides with Lean's character count there, and the
ASCII fragments of the JS whitespace class and of toUpperCase are used.
Amounts are modelled as rationals (`z.coerce.number` yields a JS number;
the claims only concern order comparisons, which ℚ models exactly).
-/

namespace CreditApp

/-- JS whitespace characters (ASCII fragment of the \s class used by
String.prototype.trim and by the \s in the name regex): space, tab,
newline, carriage return, vertical tab, form feed. -/
def jsWhitespace (c : Char) : Bool :=
  c == ' ' || c == '\t' || c == '\n' || c == '\r' ||
  c == Char.ofNat 11 || c == Char.ofNat 12

/-- JS String.prototype.trim: drop leading and trailing whitespace.
This is what zod's .trim() applies before the min/max/regex checks. -/
def jsTrim (s : String) : String :=
  String.mk (((s.toList.dropWhile jsWhitespace).reverse.dropWhile jsWhitespace).reverse)

/-- JS String.prototype.toUpperCase on ASCII input (Char.toUpper maps
a-z to A-Z and fixes everything else ASCII). -/
def jsToUpper (s : String) : String :=
  String.mk (s.toList.map Char.toUpper)

/-- Character class of the name regex on line 40: [a-zA-Z\s'-]. -/
def isNameChar (c : Char) : Bool :=
  c.isAlpha || jsWhitespace c || c == Char.ofNat 39 || c == '-'

/-- formSchema.amount (lines 28-34): z.coerce.number().positive().max(10000000).
The numeric coercion of the raw input string is abstracted: `none` stands
for an input that does not coerce to a number (required / invalid_type
errors), `some a` for the coerced number. -/
def parseAmount : Option ℚ → Option ℚ
  | none => none
  | some a => if 0 < a ∧ a ≤ 10000000 then some a else none

/-- formSchema.name (lines 35-40): z.string().trim().min(2).max(100)
.regex([a-zA-Z\s'-]+). The regex's + (at least one char) is subsumed
by min(2). Returns the trimmed value, as zod's .trim() transforms. -/
def parseName (s : String) : Option String :=
  let t := jsTrim s
  if 2 ≤ t.length ∧ t.length ≤ 100 ∧ t.toList.all isNameChar = true then
    some t
  else none

/-- formSchema.taxid (lines 41-46): z.string().trim().min(5).max(20)
.regex([A-Z0-9]+ case-insensitive), i.e. all characters alphanumeric. -/
def parseTaxid (s : String) : Option String :=
  let t := jsTrim s
  if 5 ≤ t.length ∧ t.length ≤ 20 ∧ t.toList.all Char.isAlphanum = true then
    some t
  else none

/-- formSchema.nationality (lines 47-49): z.string().min(1). Note the
schema itself only requires a non-empty string; the `nationalities`
list is used solely to render the select options (lines 237-243). -/
def parseNationality (s : String) : Option String :=
  if 1 ≤ s.length then some s else none

/-- Splitting of a character list at a separator character, as in JS
String.prototype.split with a single-character separator; an empty
string yields one empty part. -/
def splitOnChar (sep : Char) : List Char → List (List Char)
  | [] => [[]]
  | c :: rest =>
    let r := splitOnChar sep rest
    if c == sep then [] :: r
    else
      match r with
      | [] => [[c]]
      | h :: t => (c :: h) :: t

/-- Local-part character class of the zod email pattern:
letters, digits, underscore, apostrophe, plus, hyphen, dot. -/
def isEmailLocalChar (c : Char) : Bool :=
  c.isAlphanum || c == '_' || c == Char.ofNat 39 || c == '+' || c == '-' || c == '.'

/-- Characters the local part may end with (no dot, no apostrophe). -/
def isEmailLocalEnd (c : Char) : Bool :=
  c.isAlphanum || c == '_' || c == '+' || c == '-'

/-- Check that no two consecutive characters are both dots (the
negative lookahead over the whole address in the zod email pattern). -/
def noDoubleDot : List Char → Bool
  | [] => true
  | [_] => true
  | c :: d :: rest => !(c == '.' && d == '.') && noDoubleDot (d :: rest)

/-- Validity of the local part: non-empty, not starting with a dot,
all characters in the local class, last character in the end class. -/
def validLocal (l : List Char) : Bool :=
  match l with
  | [] => false
  | c :: _ =>
      !(c == '.') && l.all isEmailLocalChar &&
      (match l.getLast? with
       | some d => isEmailLocalEnd d
       | none => false)

/-- Validity of a non-final domain label: starts alphanumeric, then
alphanumerics and hyphens. -/
def validLabel (l : List Char) : Bool :=
  match l with
  | [] => false
  | c :: rest => c.isAlphanum && rest.all (fun d => d.isAlphanum || d == '-')

/-- Validity of the final domain label: at least two letters. -/
def validTld (l : List Char) : Bool :=
  decide (2 ≤ l.length) && l.all Char.isAlpha

/-- Validity of the domain: at least two dot-separated parts, all but
the last a valid label, the last a valid TLD. -/
def validDomain (dom : List Char) : Bool :=
  let parts := splitOnChar '.' dom
  decide (2 ≤ parts.length) && parts.dropLast.all validLabel &&
  (match parts.getLast? with
   | some t => validTld t
   | none => false)

/-- Modelled from the spec: zod's .email() validator (line 53 calls it;
its implementation lives in the zod library, which is not under src/).
The spec only says "email: valid address ≤ 255 chars"; this follows
zod v3's documented email pattern: exactly one @, a local part of
letters / digits / underscores / apostrophes / plus / minus / dots not
starting with a dot, containing no consecutive dots and not ending in a
dot or apostrophe, and a domain of one or more alphanumeric-hyphen
labels followed by an alphabetic top-level label of length at least 2. -/
def zodEmail (s : String) : Bool :=
  noDoubleDot s.toList &&
  (match splitOnChar '@' s.toList with
   | [loc, dom] => validLocal loc && validDomain dom
   | _ => false)

/-- formSchema.email (lines 50-54): z.string().trim().email().max(255). -/
def parseEmail (s : String) : Option String :=
  let t := jsTrim s
  if zodEmail t = true ∧ t.length ≤ 255 then some t else none

/-- The nationalities list (lines 59-71); it populates the select
options in the UI (lines 237-243). -/
def nationalities : List String :=
  ["american", "british", "canadian", "chinese", "french", "german",
   "indian", "italian", "japanese", "spanish", "other"]

/-- FormValues (line 57): the record produced by a successful parse of
the schema; this is the `data` passed to onSubmit. -/
structure FormValues where
  amount : ℚ
  name : String
  taxid : String
  nationality : String
  email : String
deriving DecidableEq

/-- Raw form state: the values currently held by the five inputs.
The amount input is numeric (type="number" with z.coerce.number);
`none` models an empty or non-numeric input (defaultValue undefined). -/
structure FormState where
  amount : Option ℚ
  name : String
  taxid : String
  nationality : String
  email : String
deriving DecidableEq

/-- defaultValues of useForm (lines 79-85): amount undefined, all
string fields empty. form.reset() restores this state. -/
def defaultFormState : FormState :=
  { amount := none, name := "", taxid := "", nationality := "", email := "" }

/-- Parsing a candidate record with formSchema (zodResolver, line 78):
accepted exactly when every field parser accepts; the accepted record
carries the (trimmed) field outputs. -/
def parseRecord (fs : FormState) : Option FormValues :=
  match parseAmount fs.amount, parseName fs.name, parseTaxid fs.taxid,
        parseNationality fs.nationality, parseEmail fs.email with
  | some a, some n, some t, some na, some e =>
      some { amount := a, name := n, taxid := t, nationality := na, email := e }
  | _, _, _, _, _ => none

/-- Field edit events: one per input of the form. -/
inductive FieldEdit
  | amount (v : Option ℚ)
  | name (s : String)
  | taxid (s : String)
  | nationality (s : String)
  | email (s : String)

/-- Effect of a field edit on the form state. Every handler stores the
input as typed, except the tax-ID handler (line 210), which stores
e.target.value.toUpperCase(). -/
def applyEdit (fs : FormState) : FieldEdit → FormState
  | .amount v => { fs with amount := v }
  | .name s => { fs with name := s }
  | .taxid s => { fs with taxid := jsToUpper s }
  | .nationality s => { fs with nationality := s }
  | .email s => { fs with email := s }

/-- Endpoint of the POST (line 93). -/
def submitUrl : String := "https://api.example.com/v1/form/submit"

/-- Outbound request (lines 93-99): POST to the fixed endpoint whose
JSON body carries the five fields of the validated record. The JSON
rendering of the record is abstracted to the record itself. -/
structure Request where
  url : String
  method : String
  body : FormValues
deriving DecidableEq

/-- Construction of the one request issued by onSubmit (lines 93-99). -/
def mkRequest (r : FormValues) : Request :=
  { url := submitUrl, method := "POST", body := r }

/-- Toast notices (toast.success line 106, toast.error line 116). -/
inductive Notice
  | success
  | failure
deriving DecidableEq

/-- Outcome of the transport step: response.ok, a non-success HTTP
status (line 101 turns it into a thrown error), or a network error
(fetch rejects). -/
inductive TransportResult
  | ok
  | httpError
  | networkError
deriving DecidableEq

/-- Controller state: the form values, the two useState flags
(lines 74-75), the log of issued requests and surfaced notices, the
number of in-flight requests, and whether a reset timer is pending. -/
structure ControllerState where
  form : FormState
  isSubmitting : Bool
  isSuccess : Bool
  outstanding : Nat
  requests : List Request
  notices : List Notice
  timerPending : Bool
deriving DecidableEq

/-- Initial state of the component: default form values, both flags
false, nothing issued. -/
def initialState : ControllerState :=
  { form := defaultFormState, isSubmitting := false, isSuccess := false,
    outstanding := 0, requests := [], notices := [], timerPending := false }

/-- Pressing the submit button. Modelled from the spec for the two
framework-supplied behaviours not under src/: a disabled button
(disabled=isSubmitting, line 280) ignores the press, and
form.handleSubmit(onSubmit) with zodResolver (lines 78 and 146) invokes
onSubmit only when formSchema accepts the current values, per the spec
sentence "Transition Idle to Submitting occurs only when validation
accepts the record". When onSubmit runs (lines 88-99) it sets
isSubmitting and issues the POST with the validated record. -/
def pressSubmit (s : ControllerState) : ControllerState :=
  if s.isSubmitting then s
  else
    match parseRecord s.form with
    | some r =>
        { s with isSubmitting := true,
                 outstanding := s.outstanding + 1,
                 requests := s.requests ++ [mkRequest r] }
    | none => s

/-- Resolution of the in-flight request (lines 101-122). On response.ok:
isSuccess set, success toast, reset timer scheduled. On a non-success
status or network error, the catch branch surfaces the error toast and
touches nothing else. The finally branch clears isSubmitting in every
case. The form values are not modified on any path. -/
def resolveSubmit (s : ControllerState) (res : TransportResult) : ControllerState :=
  match res with
  | .ok =>
      { s with isSuccess := true,
               notices := Notice.success :: s.notices,
               timerPending := true,
               outstanding := s.outstanding - 1,
               isSubmitting := false }
  | _ =>
      { s with notices := Notice.failure :: s.notices,
               outstanding := s.outstanding - 1,
               isSubmitting := false }

/-- Delay of the reset timer in milliseconds (line 114). -/
def resetDelayMs : Nat := 3000

/-- Firing of the scheduled reset (lines 111-114): form.reset() restores
the default values and isSuccess is cleared. -/
def timerFire (s : ControllerState) : ControllerState :=
  if s.timerPending then
    { s with form := defaultFormState, isSuccess := false, timerPending := false }
  else s

/-- Events of the event-driven controller: a field edit, a press of the
submit button, resolution of an in-flight request (which presupposes one
is outstanding), and the reset timer firing. -/
inductive Step : ControllerState → ControllerState → Prop
  | edit (s : ControllerState) (e : FieldEdit) :
      Step s { s with form := applyEdit s.form e }
  | press (s : ControllerState) : Step s (pressSubmit s)
  | resolve (s : ControllerState) (res : TransportResult)
      (h : 0 < s.outstanding) : Step s (resolveSubmit s res)
  | timer (s : ControllerState) : Step s (timerFire s)

/-- States reachable from the initial state through controller events. -/
inductive Reachable : ControllerState → Prop
  | init : Reachable initialState
  | step {s t : ControllerState} : Reachable s → Step s t → Reachable t

/-- Per-field constraints of the data model, stated on a parsed record:
amount positive and at most 10,000,000; name 2-100 chars from the name
class; tax ID 5-20 alphanumeric chars; nationality non-empty; email
matching the address pattern and at most 255 chars. -/
def fieldConstraints (r : FormValues) : Prop :=
  (0 < r.amount ∧ r.amount ≤ 10000000) ∧
  (2 ≤ r.name.length ∧ r.name.length ≤ 100 ∧ r.name.toList.all isNameChar = true) ∧
  (5 ≤ r.taxid.length ∧ r.taxid.length ≤ 20 ∧ r.taxid.toList.all Char.isAlphanum = true) ∧
  (1 ≤ r.nationality.length) ∧
  (zodEmail r.email = true ∧ r.email.length ≤ 255)

/-- Form state reached by typing the scenario values of the spec's
example: amount 1500.00, name John Doe, tax ID typed as ab123456c
(uppercased by its onChange handler), nationality american, email
john at x.com. -/
def c7Form : FormState :=
  applyEdit (applyEdit (applyEdit (applyEdit (applyEdit defaultFormState
    (FieldEdit.amount (some 1500))) (FieldEdit.name "John Doe"))
    (FieldEdit.taxid "ab123456c")) (FieldEdit.nationality "american"))
    (FieldEdit.email "john@x.com")

/-- Validated record the scenario should produce. -/
def c7Record : FormValues :=
  { amount := 1500, name := "John Doe", taxid := "AB123456C",
    nationality := "american", email := "john@x.com" }

/-! Soundness lemmas for the field parsers: an accepted value is the
trimmed input and satisfies the field's constraints. -/

theorem parseAmount_sound {x : Option ℚ} {a : ℚ} (h : parseAmount x = some a) :
    0 < a ∧ a ≤ 10000000 := by
  cases x with
  | none => simp [parseAmount] at h
  | some b =>
      simp only [parseAmount] at h
      split_ifs at h with hc
      simp only [Option.some.injEq] at h
      subst h; exact hc

theorem parseName_sound {s n : String} (h : parseName s = some n) :
    n = jsTrim s ∧ 2 ≤ n.length ∧ n.length ≤ 100 ∧ n.toList.all isNameChar = true := by
  simp only [parseName] at h
  split_ifs at h with hc
  simp only [Option.some.injEq] at h
  subst h; exact ⟨rfl, hc⟩

theorem parseTaxid_sound {s n : String} (h : parseTaxid s = some n) :
    n = jsTrim s ∧ 5 ≤ n.length ∧ n.length ≤ 20 ∧ n.toList.all Char.isAlphanum = true := by
  simp only [parseTaxid] at h
  split_ifs at h with hc
  simp only [Option.some.injEq] at h
  subst h; exact ⟨rfl, hc⟩

theorem parseNationality_sound {s n : String} (h : parseNationality s = some n) :
    n = s ∧ 1 ≤ n.length := by
  simp only [parseNationality] at h
  split_ifs at h with hc
  simp only [Option.some.injEq] at h
  subst h; exact ⟨rfl, hc⟩

theorem parseEmail_sound {s n : String} (h : parseEmail s = some n) :
    n = jsTrim s ∧ zodEmail n = true ∧ n.length ≤ 255 := by
  simp only [parseEmail] at h
  split_ifs at h with hc
  simp only [Option.some.injEq] at h
  subst h; exact ⟨rfl, hc⟩

/-- Soundness of the whole schema: an accepted record satisfies every
per-field constraint of the data model. -/
theorem parseRecord_sound {fs : FormState} {r : FormValues}
    (h : parseRecord fs = some r) : fieldConstraints r := by
  unfold parseRecord at h
  split at h
  next a n t na e ha hn ht hna he =>
    simp only [Option.some.injEq] at h
    subst h
    exact ⟨parseAmount_sound ha, (parseName_sound hn).2, (parseTaxid_sound ht).2,
           (parseNationality_sound hna).2, (parseEmail_sound he).2⟩
  next => cases h

/-- Single-step preservation of the in-flight bookkeeping: the number of
outstanding requests is 1 exactly while isSubmitting is set. -/
theorem step_outstanding {s t : ControllerState} (hst : Step s t)
    (ih : s.outstanding = if s.isSubmitting then 1 else 0) :
    t.outstanding = if t.isSubmitting then 1 else 0 := by
  cases hst with
  | edit e => simpa using ih
  | press =>
      cases hbv : s.isSubmitting with
      | true => simpa [pressSubmit, hbv] using ih
      | false =>
          rcases hp : parseRecord s.form with _ | r
          · simpa [pressSubmit, hbv, hp] using ih
          · have h0 : s.outstanding = 0 := by simpa [hbv] using ih
            simp [pressSubmit, hbv, hp, h0]
  | resolve res hpos =>
      cases hbv : s.isSubmitting with
      | false => rw [ih, hbv] at hpos; simp at hpos
      | true =>
          have h1 : s.outstanding = 1 := by rw [ih, hbv]; rfl
          cases res <;> simp [resolveSubmit, h1]
  | timer =>
      cases htv : s.timerPending with
      | true => simpa [timerFire, htv] using ih
      | false => simpa [timerFire, htv] using ih

/-- Invariant of every reachable controller state: the outstanding
request count equals 1 while submitting and 0 otherwise. -/
theorem outstanding_flag {s : ControllerState} (h : Reachable s) :
    s.outstanding = if s.isSubmitting then 1 else 0 := by
  induction h with
  | init => rfl
  | step _ hst ih => exact step_outstanding hst ih

/-- Claim C1 counterexample: the schema's nationality rule is only
min(1), so it accepts the string martian, which is not a member of the
fixed enumerated nationalities list; the claim that everything outside
the enumerated set is rejected is therefore false of the code. -/
theorem nationality_not_enumerated :
    parseNationality "martian" = some "martian" ∧ "martian" ∉ nationalities := by
  decide

/-- Claim C1 (amended): the validation schema accepts the nationality
field exactly when it is a non-empty string; in particular every member
of the enumerated nationalities list is accepted. The enumerated set is
only used to render the select options and is not enforced by the
schema. -/
theorem nationality_nonempty_iff :
    (∀ n : String, n ∈ nationalities → (parseNationality n).isSome = true) ∧
    (∀ s : String, (parseNationality s).isSome = true ↔ 1 ≤ s.length) := by
  constructor
  · decide
  · intro s
    by_cases h : 1 ≤ s.length <;> simp [parseNationality, h]

/-- Witness for the amended C1 theorem at concrete inputs: the
enumerated value american is accepted, and so is the one-character
string x. -/
theorem nationality_nonempty_iff_attest :
    (parseNationality "american").isSome = true ∧ (parseNationality "x").isSome = true :=
  ⟨nationality_nonempty_iff.1 "american" (by decide),
   (nationality_nonempty_iff.2 "x").mpr (by decide)⟩

/-- Claim C2: the amount constraint accepts a coerced amount a exactly
when 0 < a and a is at most 10,000,000, and rejects it whenever a is
nonpositive or exceeds 10,000,000. -/
theorem amount_bounds (a : ℚ) :
    (parseAmount (some a) = some a ↔ (0 < a ∧ a ≤ 10000000)) ∧
    ((a ≤ 0 ∨ 10000000 < a) → parseAmount (some a) = none) := by
  constructor
  · constructor
    · intro h; exact parseAmount_sound h
    · intro h; simp [parseAmount, h]
  · intro h
    have hn : ¬(0 < a ∧ a ≤ 10000000) := by
      rcases h with h | h
      · rintro ⟨h1, -⟩; linarith
      · rintro ⟨-, h2⟩; linarith
    simp [parseAmount, hn]

/-- Witness for C2 at concrete amounts: 1500 is accepted, -5 and
10000001 are rejected. -/
theorem amount_bounds_attest :
    parseAmount (some 1500) = some 1500 ∧ parseAmount (some (-5)) = none ∧
    parseAmount (some 10000001) = none :=
  ⟨(amount_bounds 1500).1.mpr (by norm_num),
   (amount_bounds (-5)).2 (by norm_num),
   (amount_bounds 10000001).2 (by norm_num)⟩

/-- Claim C3: while a submission is in flight, pressing submit again is
a no-op (the disabled button leaves the state unchanged, so no second
request is issued), and in every reachable controller state at most one
request is outstanding. -/
theorem submit_noop_while_inflight :
    (∀ s : ControllerState, s.isSubmitting = true → pressSubmit s = s) ∧
    (∀ s : ControllerState, Reachable s → s.outstanding ≤ 1) := by
  constructor
  · intro s h; simp [pressSubmit, h]
  · intro s h
    rw [outstanding_flag h]
    split <;> simp

/-- Witness for C3 at a concrete state: a press in a submitting state
changes nothing, and the initial state has at most one outstanding
request. -/
theorem submit_noop_while_inflight_attest :
    pressSubmit { initialState with isSubmitting := true } =
      { initialState with isSubmitting := true } ∧
    initialState.outstanding ≤ 1 :=
  ⟨submit_noop_while_inflight.1 _ rfl, submit_noop_while_inflight.2 _ Reachable.init⟩

/-- Claim C4: for every string s typed into the tax-ID field, the value
stored in the form is the uppercase of s, and validation of the updated
form is validation of the form holding that uppercase value, so the
schema only ever sees the uppercased input. -/
theorem taxid_uppercased (fs : FormState) (s : String) :
    (applyEdit fs (FieldEdit.taxid s)).taxid = jsToUpper s ∧
    parseRecord (applyEdit fs (FieldEdit.taxid s)) =
      parseRecord { fs with taxid := jsToUpper s } :=
  ⟨rfl, rfl⟩

/-- Claim C5: when the transport step fails (non-success status or
network error), every form field keeps its value, isSubmitting returns
to false (the form is immediately re-submittable), and isSuccess is
unchanged. -/
theorem failure_preserves_form (s : ControllerState) (res : TransportResult)
    (h : res ≠ TransportResult.ok) :
    (resolveSubmit s res).form = s.form ∧
    (resolveSubmit s res).isSubmitting = false ∧
    (resolveSubmit s res).isSuccess = s.isSuccess := by
  cases res with
  | ok => exact absurd rfl h
  | httpError => exact ⟨rfl, rfl, rfl⟩
  | networkError => exact ⟨rfl, rfl, rfl⟩

/-- Witness for C5 at a concrete state and a concrete HTTP failure. -/
theorem failure_preserves_form_attest :
    (resolveSubmit initialState TransportResult.httpError).form = initialState.form ∧
    (resolveSubmit initialState TransportResult.httpError).isSubmitting = false ∧
    (resolveSubmit initialState TransportResult.httpError).isSuccess = initialState.isSuccess :=
  failure_preserves_form initialState TransportResult.httpError (by decide)

/-- Claim C6: whenever a press of the submit button actually issues a
request, the current form values were accepted by the validation schema
and the submitted record satisfies every per-field constraint. -/
theorem submit_only_validated (s : ControllerState) (req : Request)
    (h : (pressSubmit s).requests = s.requests ++ [req]) :
    parseRecord s.form = some req.body ∧ fieldConstraints req.body := by
  unfold pressSubmit at h
  cases hbv : s.isSubmitting with
  | true =>
      rw [hbv] at h
      simp at h
  | false =>
      rw [hbv] at h
      rcases hp : parseRecord s.form with _ | r
      · rw [hp] at h
        simp at h
      · rw [hp] at h
        simp at h
        subst h
        exact ⟨rfl, parseRecord_sound hp⟩

/-- Witness for C6 at the concrete scenario state: that state issues the
scenario request, whose body validates and satisfies all constraints. -/
theorem submit_only_validated_attest :
    parseRecord c7Form = some (mkRequest c7Record).body ∧
    fieldConstraints (mkRequest c7Record).body :=
  submit_only_validated { initialState with form := c7Form } (mkRequest c7Record) (by decide)

/-- Claim C7: for the scenario record (amount 1500, name John Doe,
tax ID typed ab123456c, nationality american, email john at x.com) the
stored tax ID is AB123456C, validation accepts the record, and pressing
submit issues exactly one POST to the fixed endpoint carrying the five
validated fields as its body. -/
theorem c7_scenario :
    c7Form.taxid = "AB123456C" ∧
    parseRecord c7Form = some c7Record ∧
    (pressSubmit { initialState with form := c7Form }).requests =
      [{ url := submitUrl, method := "POST", body := c7Record }] := by decide

/-- Claim C8: on a successful transport response the controller enters
the Success state (isSuccess true, confirmation notice surfaced, reset
timer scheduled, isSubmitting cleared), and when the scheduled reset
fires the form returns to its default (empty) values with isSuccess
false. -/
theorem success_then_reset :
    (∀ s : ControllerState,
       (resolveSubmit s TransportResult.ok).isSuccess = true ∧
       (resolveSubmit s TransportResult.ok).notices = Notice.success :: s.notices ∧
       (resolveSubmit s TransportResult.ok).timerPending = true ∧
       (resolveSubmit s TransportResult.ok).isSubmitting = false) ∧
    (∀ s : ControllerState, s.timerPending = true →
       (timerFire s).form = defaultFormState ∧ (timerFire s).isSuccess = false) := by
  constructor
  · intro s; exact ⟨rfl, rfl, rfl, rfl⟩
  · intro s h; simp [timerFire, h]

/-- Witness for C8: firing the timer in a concrete state with a pending
reset restores the default form values and clears isSuccess. -/
theorem success_then_reset_attest :
    (timerFire { initialState with timerPending := true }).form = defaultFormState ∧
    (timerFire { initialState with timerPending := true }).isSuccess = false :=
  success_then_reset.2 _ rfl

/-- Claim C9: name, tax-ID and email validation applies to the trimmed
input: any accepted value is the trimmed input, and an input whose
trimmed length violates the field's min/max bound is rejected
regardless of its raw length. -/
theorem trimmed_validation :
    (∀ s r : String, parseName s = some r → r = jsTrim s) ∧
    (∀ s : String, (jsTrim s).length < 2 ∨ 100 < (jsTrim s).length → parseName s = none) ∧
    (∀ s r : String, parseTaxid s = some r → r = jsTrim s) ∧
    (∀ s : String, (jsTrim s).length < 5 ∨ 20 < (jsTrim s).length → parseTaxid s = none) ∧
    (∀ s r : String, parseEmail s = some r → r = jsTrim s) ∧
    (∀ s : String, 255 < (jsTrim s).length → parseEmail s = none) := by
  refine ⟨?_, ?_, ?_, ?_, ?_, ?_⟩
  · intro s r h; exact (parseName_sound h).1
  · intro s h
    simp only [parseName]
    rw [if_neg]
    rintro ⟨h1, h2, -⟩
    rcases h with h | h <;> omega
  · intro s r h; exact (parseTaxid_sound h).1
  · intro s h
    simp only [parseTaxid]
    rw [if_neg]
    rintro ⟨h1, h2, -⟩
    rcases h with h | h <;> omega
  · intro s r h; exact (parseEmail_sound h).1
  · intro s h
    simp only [parseEmail]
    rw [if_neg]
    rintro ⟨-, h2⟩
    omega

/-- Witness for C9 at concrete inputs whose raw length satisfies the
minimum but whose trimmed length does not: a name of one letter between
spaces and a tax ID of four characters between spaces are rejected. -/
theorem trimmed_validation_attest :
    parseName " A " = none ∧ parseTaxid " AB12 " = none := by
  constructor
  · exact trimmed_validation.2.1 " A " (Or.inl (by decide))
  · exact trimmed_validation.2.2.2.1 " AB12 " (Or.inl (by decide))

/-- Claim C10: after a submission attempt resolves, on every path
(success, non-success status, or network error), the isSubmitting flag
is false: the finally branch always clears it. -/
theorem submit_always_clears (s : ControllerState) (res : TransportResult) :
    (resolveSubmit s res).isSubmitting = false := by
  cases res <;> rfl

end CreditApp
